import Mathlib

/-!
Verification of the `unwrap_none` crate (`src/lib.rs`).

The crate adds three methods to `Option<T>` (for `T: fmt::Debug`):
`expect_none`, `unwrap_none` and `unwrap_none_or_else`. Shallow embedding:

* A panic is modelled by the `Outcome` type: `Outcome.ok` is a normal
  return of `()`, `Outcome.panic s` is a fatal abort whose message is `s`.
* The `fmt::Debug` instance of `T` is modelled by an explicit rendering
  function `debug : T → String`; every method of the `impl` block takes it,
  because the whole `impl` is bounded by `T: fmt::Debug`.
* `unwrap_none_or_else` takes a caller handler `f : T → Outcome` (the
  handler may itself abort) and additionally returns the trace of the
  arguments the handler was invoked with, so that "invoked exactly once
  with `v`" is expressible.
-/

namespace UnwrapNoneCrate

/-- Result of one call: either a normal return of `()` or a panic with the
given message. -/
inductive Outcome where
  | ok : Outcome
  | panic : String → Outcome
deriving DecidableEq, Repr

/-- Embeds `expect_none_failed` (src/lib.rs lines 144-146):
`panic!("{}: {:?}", msg, value)`, with the debug rendering of the value
already computed to a string. -/
def expect_none_failed (msg : String) (value : String) : Outcome :=
  Outcome.panic (msg ++ ": " ++ value)

/-- Embeds `expect_none` (src/lib.rs lines 115-119). -/
def expect_none {T : Type} (debug : T → String) (o : Option T) (msg : String) :
    Outcome :=
  match o with
  | some val => expect_none_failed msg (debug val)
  | none => Outcome.ok

/-- Embeds `unwrap_none` (src/lib.rs lines 123-127). -/
def unwrap_none {T : Type} (debug : T → String) (o : Option T) : Outcome :=
  match o with
  | some val =>
      expect_none_failed "called `Option::unwrap_none()` on a `Some` value"
        (debug val)
  | none => Outcome.ok

/-- Embeds `unwrap_none_or_else` (src/lib.rs lines 130-137). The first
component is the call's outcome (the handler's outcome when it runs), the
second the list of arguments the handler was invoked with, in order.
`debug` is taken because the surrounding `impl` requires `T: fmt::Debug`,
but the body never consults it. -/
def unwrap_none_or_else {T : Type} (debug : T → String) (o : Option T)
    (f : T → Outcome) : Outcome × List T :=
  match o with
  | some val => (f val, [val])
  | none => (Outcome.ok, [])

/-- Debug rendering of Rust `i32` values, as used in the crate's doc
examples: `{:?}` on an integer prints its decimal representation. -/
def intDebug (n : Int) : String := toString n

/-- Claim C1: for every value `v` with a debug rendering and every message
`m`, `expect_none` on `Present(v)` with message `m` panics with text
`"<m>: <debug-rendering of v>"`; in particular `expect_none` on
`Present(5)` with message `"duplicate key"` panics with text
`"duplicate key: 5"`. -/
theorem expect_none_present_panics :
    (∀ (T : Type) (debug : T → String) (v : T) (m : String),
      expect_none debug (some v) m = Outcome.panic (m ++ ": " ++ debug v)) ∧
    expect_none intDebug (some 5) "duplicate key" =
      Outcome.panic "duplicate key: 5" := by
  refine ⟨fun T debug v m => rfl, ?_⟩
  decide

/-- Counterexample to claim C2 as stated: the fixed built-in message of
`unwrap_none` is not `"called unwrap_none on a value that was present"`;
at `Present(5)` the panic text is not that message followed by `": 5"`. -/
theorem unwrap_none_spec_message_counterexample :
    unwrap_none intDebug (some 5) ≠
      Outcome.panic
        ("called unwrap_none on a value that was present" ++ ": " ++ "5") := by
  decide

/-- Claim C2 (amended): `unwrap_none` on `Present(v)` panics with the fixed
built-in message `"called `Option::unwrap_none()` on a `Some` value"`, and
the failure text contains the debug rendering of `v`. -/
theorem unwrap_none_present_panics :
    ∀ (T : Type) (debug : T → String) (v : T),
      unwrap_none debug (some v) =
        Outcome.panic
          ("called `Option::unwrap_none()` on a `Some` value: " ++ debug v) ∧
      ∃ s a b, unwrap_none debug (some v) = Outcome.panic s ∧
        s = a ++ debug v ++ b := by
  intro T debug v
  refine ⟨rfl, "called `Option::unwrap_none()` on a `Some` value: " ++ debug v,
    "called `Option::unwrap_none()` on a `Some` value: ", "", rfl, ?_⟩
  simp

/-- Claim C3: `unwrap_none_or_else` on `Present(v)` invokes the handler
exactly once with argument `v`, and the call's own outcome is exactly the
handler's outcome (normal unless the handler aborts). -/
theorem unwrap_none_or_else_present_calls_once :
    ∀ (T : Type) (debug : T → String) (v : T) (f : T → Outcome),
      (unwrap_none_or_else debug (some v) f).2 = [v] ∧
      (unwrap_none_or_else debug (some v) f).1 = f v := by
  intro T debug v f
  exact ⟨rfl, rfl⟩

/-- Claim C4: on the empty optional, `expect_none` (for every message,
including the empty string) and `unwrap_none` return normally; no failure
path is invoked. -/
theorem empty_expect_none_unwrap_none_ok :
    ∀ (T : Type) (debug : T → String) (m : String),
      expect_none debug (none : Option T) m = Outcome.ok ∧
      unwrap_none debug (none : Option T) = Outcome.ok := by
  intro T debug m
  exact ⟨rfl, rfl⟩

/-- Claim C5: on the empty optional, `unwrap_none_or_else` returns normally
and the handler is invoked zero times. -/
theorem unwrap_none_or_else_empty_no_call :
    ∀ (T : Type) (debug : T → String) (f : T → Outcome),
      unwrap_none_or_else debug (none : Option T) f = (Outcome.ok, []) := by
  intro T debug f
  rfl

/-- Claim C6: on every optional, `unwrap_none` behaves exactly like
`expect_none` with the fixed built-in message. -/
theorem unwrap_none_eq_expect_none_fixed_msg :
    ∀ (T : Type) (debug : T → String) (o : Option T),
      unwrap_none debug o =
        expect_none debug o "called `Option::unwrap_none()` on a `Some` value" := by
  intro T debug o
  cases o <;> rfl

/-- Claim C7: `expect_none` and `unwrap_none` panic exactly when the
optional is non-empty, and `unwrap_none_or_else` raises no error of its
own: its outcome is either a normal return, or exactly the outcome of the
caller-supplied handler at the present value. -/
theorem panic_only_when_present :
    ∀ (T : Type) (debug : T → String) (o : Option T) (m : String)
      (f : T → Outcome),
      ((∃ s, expect_none debug o m = Outcome.panic s) ↔ ∃ v, o = some v) ∧
      ((∃ s, unwrap_none debug o = Outcome.panic s) ↔ ∃ v, o = some v) ∧
      ((unwrap_none_or_else debug o f).1 = Outcome.ok ∨
        ∃ v, o = some v ∧ (unwrap_none_or_else debug o f).1 = f v) := by
  intro T debug o m f
  cases o with
  | none =>
      refine ⟨?_, ?_, Or.inl rfl⟩ <;>
        exact ⟨fun ⟨s, hs⟩ => absurd hs (by simp [expect_none, unwrap_none]),
          fun ⟨v, hv⟩ => by cases hv⟩
  | some v =>
      refine ⟨?_, ?_, Or.inr ⟨v, rfl, rfl⟩⟩
      · exact ⟨fun _ => ⟨v, rfl⟩, fun _ => ⟨m ++ ": " ++ debug v, rfl⟩⟩
      · exact ⟨fun _ => ⟨v, rfl⟩,
          fun _ => ⟨"called `Option::unwrap_none()` on a `Some` value: " ++
            debug v, rfl⟩⟩

/-- Claim C8: each operation is deterministic: two calls on equal inputs
(same optional, same message or handler) produce identical outcomes; in
this model a call's entire observable behaviour is its returned outcome
(and handler trace). -/
theorem operations_deterministic :
    ∀ (T : Type) (debug : T → String) (o o' : Option T) (m m' : String)
      (f f' : T → Outcome),
      o = o' → m = m' → f = f' →
      expect_none debug o m = expect_none debug o' m' ∧
      unwrap_none debug o = unwrap_none debug o' ∧
      unwrap_none_or_else debug o f = unwrap_none_or_else debug o' f' := by
  intro T debug o o' m m' f f' ho hm hf
  subst ho; subst hm; subst hf
  exact ⟨rfl, rfl, rfl⟩

/-- Witness for claim C8 at concrete equal inputs. -/
theorem operations_deterministic_witness :
    expect_none intDebug (some 5) "duplicate" =
      expect_none intDebug (some 5) "duplicate" ∧
    unwrap_none intDebug (some 5) = unwrap_none intDebug (some 5) ∧
    unwrap_none_or_else intDebug (some 5) (fun _ => Outcome.ok) =
      unwrap_none_or_else intDebug (some 5) (fun _ => Outcome.ok) :=
  operations_deterministic Int intDebug (some 5) (some 5) "duplicate"
    "duplicate" (fun _ => Outcome.ok) (fun _ => Outcome.ok) rfl rfl rfl

/-- Claim C9: the behaviour of `unwrap_none_or_else` is independent of the
debug-rendering function; the rendering is consulted only on the failure
paths of `expect_none` and `unwrap_none` (on the empty optional these two
are also rendering-independent). -/
theorem unwrap_none_or_else_debug_independent :
    ∀ (T : Type) (d1 d2 : T → String) (o : Option T) (f : T → Outcome)
      (m : String),
      unwrap_none_or_else d1 o f = unwrap_none_or_else d2 o f ∧
      expect_none d1 (none : Option T) m = expect_none d2 (none : Option T) m ∧
      unwrap_none d1 (none : Option T) = unwrap_none d2 (none : Option T) := by
  intro T d1 d2 o f m
  exact ⟨rfl, rfl, rfl⟩

/-- Claim C10: the failure-text format has no special case for the empty
message: `expect_none` on `Present(v)` with the empty message panics with
text `": <debug-rendering of v>"`. -/
theorem expect_none_empty_message_format :
    (∀ (T : Type) (debug : T → String) (v : T),
      expect_none debug (some v) "" = Outcome.panic (": " ++ debug v)) ∧
    expect_none intDebug (some 7) "" = Outcome.panic ": 7" := by
  constructor
  · intro T debug v
    show Outcome.panic ("" ++ ": " ++ debug v) = Outcome.panic (": " ++ debug v)
    simp
  · decide

end UnwrapNoneCrate
